import Mathlib

/-!
Shallow embedding of the adaptive-difficulty core of the math-adaptive-prototype
repository (src/tracker.py and src/adaptive_engine.py), with theorems checking
the specification's claims against it.

Conventions of the embedding:
* Python floats are modelled as exact rationals (ℚ).
* Python ints are modelled as ℤ (difficulty levels) or ℕ (counts, streaks).
* Python `dict` lookups that can raise `KeyError` are modelled as `Option`
  lookups, and functions whose execution can raise propagate the `none`.
* The stateful methods of `PerformanceTracker` and `AdaptiveEngine` are
  modelled by explicit state passing: a method that mutates `self` takes the
  state and returns the updated state.
* Fields of an `Attempt` that no statistic reads (the puzzle payload and the
  wall-clock timestamp) are not modelled; wall-clock instants that are read
  (`session_start`, `datetime.now()`) are modelled as rational parameters.
* Python dicts returned to callers with varying key sets
  (`get_session_summary`) are modelled as structures with `Option` fields:
  `none` means the key is absent from the returned dict.
-/

namespace MathAdaptive

/-- One entry of `PerformanceTracker.attempts` (tracker.py, `record_attempt`):
the fields the core reads. The puzzle payload and timestamp are not modelled. -/
structure Attempt where
  user_answer : ℤ
  correct_answer : ℤ
  correct : Bool
  time_taken : ℚ
  difficulty : ℤ
deriving DecidableEq, Repr

/-- State of `PerformanceTracker` (tracker.py, `__init__`). -/
structure PerformanceTracker where
  user_name : String
  session_start : ℚ
  attempts : List Attempt
  current_streak : ℕ
  best_streak : ℕ
deriving DecidableEq, Repr

/-- Embeds `PerformanceTracker.__init__(user_name)`; `session_start = datetime.now()`
is passed in as a rational instant. -/
def PerformanceTracker.init (user_name : String) (session_start : ℚ) :
    PerformanceTracker :=
  { user_name := user_name, session_start := session_start, attempts := [],
    current_streak := 0, best_streak := 0 }

/-- Embeds `PerformanceTracker.record_attempt`: append the attempt, then update the
streaks (increment and fold into best on correct, reset to 0 on incorrect). -/
def record_attempt (t : PerformanceTracker) (a : Attempt) : PerformanceTracker :=
  let t1 := { t with attempts := t.attempts ++ [a] }
  if a.correct then
    { t1 with current_streak := t1.current_streak + 1,
              best_streak := max t1.best_streak (t1.current_streak + 1) }
  else
    { t1 with current_streak := 0 }

/-- A sequence of `record_attempt` calls. -/
def run_attempts (t : PerformanceTracker) (l : List Attempt) : PerformanceTracker :=
  l.foldl record_attempt t

/-- The dict returned by `get_recent_performance` (tracker.py). -/
structure Snapshot where
  accuracy : ℚ
  avg_time : ℚ
  correct_count : ℕ
  total_count : ℕ
deriving DecidableEq, Repr

/-- Python's list slice `xs[-n:]` for a natural `n`: the last `n` elements,
except that `xs[-0:]` is `xs[0:]`, the whole list. -/
def sliceLast (l : List α) (n : ℕ) : List α :=
  if n = 0 then l else l.drop (l.length - n)

/-- Embeds `PerformanceTracker.get_recent_performance(n)`: zero-convention snapshot on
an empty log, else statistics over `attempts[-n:]`. -/
def get_recent_performance (t : PerformanceTracker) (n : ℕ) : Snapshot :=
  if t.attempts = [] then
    { accuracy := 0, avg_time := 0, correct_count := 0, total_count := 0 }
  else
    let recent := sliceLast t.attempts n
    let correct_count := (recent.filter (fun a => a.correct)).length
    let total_count := recent.length
    let avg_time := (recent.map (fun a => a.time_taken)).sum / (total_count : ℚ)
    { accuracy := (correct_count : ℚ) / (total_count : ℚ),
      avg_time := avg_time,
      correct_count := correct_count, total_count := total_count }

/-- The `Difficulty` enum (puzzle_generator.py). -/
inductive Difficulty where
  | EASY
  | MEDIUM
  | HARD
  | EXPERT
deriving DecidableEq, Repr

/-- Embeds `Difficulty.value`. -/
def Difficulty.value : Difficulty → ℤ
  | .EASY => 1
  | .MEDIUM => 2
  | .HARD => 3
  | .EXPERT => 4

/-- Embeds `AdaptiveEngine.min_difficulty` (set in `__init__`, never reassigned). -/
def min_difficulty : ℤ := 1

/-- Embeds `AdaptiveEngine.max_difficulty`. -/
def max_difficulty : ℤ := 4

/-- Embeds `AdaptiveEngine.window_size`. -/
def window_size : ℕ := 3

/-- Embeds `AdaptiveEngine.accuracy_threshold_up` (0.80). -/
def accuracy_threshold_up : ℚ := 80/100

/-- Embeds `AdaptiveEngine.accuracy_threshold_down` (0.40). -/
def accuracy_threshold_down : ℚ := 40/100

/-- Embeds `AdaptiveEngine.time_weight` (0.3). -/
def time_weight : ℚ := 3/10

/-- Embeds `AdaptiveEngine.expected_times`, a dict keyed by levels 1..4; a lookup at
any other key raises `KeyError`, modelled as `none`. -/
def expected_times (d : ℤ) : Option ℚ :=
  if d = 1 then some 10
  else if d = 2 then some 15
  else if d = 3 then some 20
  else if d = 4 then some 30
  else none

/-- The `difficulty_map` dict of `adjust_difficulty`: levels 1..4 to the enum. -/
def difficulty_map (d : ℤ) : Option Difficulty :=
  if d = 1 then some .EASY
  else if d = 2 then some .MEDIUM
  else if d = 3 then some .HARD
  else if d = 4 then some .EXPERT
  else none

/-- Embeds `AdaptiveEngine.calculate_performance_score`: neutral 0.5 on an empty
window, else a blend of accuracy and the banded time score. The
`expected_times` lookup happens only after the `total_count == 0` early
return, and raises (`none`) on a level outside 1..4. -/
def calculate_performance_score (recent_performance : Snapshot)
    (current_difficulty : ℤ) : Option ℚ :=
  if recent_performance.total_count = 0 then some (1/2)
  else
    (expected_times current_difficulty).map fun expected_time =>
      let accuracy := recent_performance.accuracy
      let avg_time := recent_performance.avg_time
      let time_score : ℚ :=
        if avg_time < expected_time * (1/2) then 1
        else if avg_time < expected_time then 8/10
        else if avg_time < expected_time * (3/2) then 6/10
        else 3/10
      accuracy * (1 - time_weight) + time_score * time_weight

/-- Embeds `AdaptiveEngine.should_increase_difficulty`: requires a full window, then
high accuracy with reasonable time, or very high accuracy outright. -/
def should_increase_difficulty (recent_performance : Snapshot)
    (current_difficulty : ℤ) : Option Bool :=
  if recent_performance.total_count < window_size then some false
  else
    (expected_times current_difficulty).map fun expected_time =>
      if recent_performance.accuracy ≥ accuracy_threshold_up ∧
          recent_performance.avg_time < expected_time * (12/10) then true
      else if recent_performance.accuracy ≥ 9/10 then true
      else false

/-- Embeds `AdaptiveEngine.should_decrease_difficulty`: requires only 2 attempts,
then low accuracy, or moderate accuracy and very slow time. -/
def should_decrease_difficulty (recent_performance : Snapshot)
    (current_difficulty : ℤ) : Option Bool :=
  if recent_performance.total_count < 2 then some false
  else
    (expected_times current_difficulty).map fun expected_time =>
      if recent_performance.accuracy < accuracy_threshold_down then true
      else if recent_performance.accuracy < 6/10 ∧
          recent_performance.avg_time > expected_time * 2 then true
      else false

/-- The dict returned by `adjust_difficulty` and appended to
`transition_history`. The human-readable `reason` string (pure display
formatting of the same accuracy/time figures) is not modelled. -/
structure Transition where
  from_level : ℤ
  to_level : ℤ
  decision : String
  performance_score : ℚ
  recent_accuracy : ℚ
  recent_avg_time : ℚ
deriving DecidableEq, Repr

/-- State of `AdaptiveEngine`: the fields `__init__` sets that are ever
reassigned; the configuration constants are the top-level defs above. -/
structure AdaptiveEngine where
  difficulty_level : ℤ
  current_difficulty : Difficulty
  transition_history : List Transition
deriving DecidableEq, Repr

/-- Embeds `AdaptiveEngine.adjust_difficulty(performance_tracker)`, by explicit state
passing. `get_recent_performance` only reads the tracker, so the tracker state
threads through unchanged. Control flow follows the source: the performance
score is computed first, `should_increase_difficulty` is evaluated next, and
`should_decrease_difficulty` only in the `elif` (when increase said no); the
increment/decrement is guarded by the boundary check; finally the
`difficulty_map` lookup and the history append. Any raising lookup makes the
whole call `none`. -/
def adjust_difficulty (e : AdaptiveEngine) (t : PerformanceTracker) :
    Option (AdaptiveEngine × PerformanceTracker × Transition) :=
  let recent_perf := get_recent_performance t window_size
  let current_diff := e.difficulty_level
  let previous_diff := current_diff
  (calculate_performance_score recent_perf current_diff).bind fun perf_score =>
  (should_increase_difficulty recent_perf current_diff).bind fun inc =>
  (if inc then
      some (if current_diff < max_difficulty then (current_diff + 1, "INCREASE")
            else (current_diff, "MAINTAIN"))
    else
      (should_decrease_difficulty recent_perf current_diff).map fun dec =>
        if dec then
          (if current_diff > min_difficulty then (current_diff - 1, "DECREASE")
           else (current_diff, "MAINTAIN"))
        else (current_diff, "MAINTAIN")).bind fun nd =>
  (difficulty_map nd.1).bind fun new_enum =>
    let transition : Transition :=
      { from_level := previous_diff, to_level := nd.1, decision := nd.2,
        performance_score := perf_score,
        recent_accuracy := recent_perf.accuracy,
        recent_avg_time := recent_perf.avg_time }
    some ({ difficulty_level := nd.1, current_difficulty := new_enum,
            transition_history := e.transition_history ++ [transition] },
          t, transition)

/-- One value of the dict returned by `get_difficulty_performance`: raw
counters plus the averages filled in by the second pass. -/
structure DiffStats where
  correct : ℕ
  total : ℕ
  times : List ℚ
  accuracy : ℚ
  avg_time : ℚ
deriving DecidableEq, Repr

/-- One iteration of the accumulation loop of `get_difficulty_performance`:
insert-or-update the stats bucket for the attempt's difficulty. The
association list keeps dict insertion order. Averages stay 0 until the
second pass. -/
def add_attempt_stat (stats : List (ℤ × DiffStats)) (a : Attempt) :
    List (ℤ × DiffStats) :=
  if stats.any (fun p => p.1 = a.difficulty) then
    stats.map fun p =>
      if p.1 = a.difficulty then
        (p.1, { p.2 with
                  total := p.2.total + 1,
                  correct := p.2.correct + (if a.correct then 1 else 0),
                  times := p.2.times ++ [a.time_taken] })
      else p
  else
    stats ++ [(a.difficulty,
      { correct := if a.correct then 1 else 0, total := 1,
        times := [a.time_taken], accuracy := 0, avg_time := 0 })]

/-- Embeds `PerformanceTracker.get_difficulty_performance`: group attempts by
difficulty, then compute per-group accuracy and average time. -/
def get_difficulty_performance (t : PerformanceTracker) :
    List (ℤ × DiffStats) :=
  (t.attempts.foldl add_attempt_stat []).map fun p =>
    (p.1, { p.2 with
              accuracy := (p.2.correct : ℚ) / (p.2.total : ℚ),
              avg_time := p.2.times.sum / (p.2.times.length : ℚ) })

/-- The dict returned by `get_session_summary`. The two branches of the
source return dicts with different key sets, so the keys present only in the
non-empty branch are `Option` fields: `none` models an absent key. -/
structure SessionSummary where
  user_name : String
  total_puzzles : ℕ
  correct : Option ℕ
  incorrect : Option ℕ
  accuracy : ℚ
  avg_time : ℚ
  best_streak : ℕ
  current_streak : Option ℕ
  session_duration : ℚ
  difficulty_breakdown : Option (List (ℤ × DiffStats))
  session_start : Option ℚ
  session_end : Option ℚ
deriving DecidableEq, Repr

/-- Embeds `PerformanceTracker.get_session_summary`; `datetime.now()` at call time is
the parameter `now`. With no attempts the source returns a reduced dict with
literal zeros (including `session_duration: 0`); otherwise the full dict with
`session_duration = now - session_start`. -/
def get_session_summary (t : PerformanceTracker) (now : ℚ) : SessionSummary :=
  if t.attempts = [] then
    { user_name := t.user_name, total_puzzles := 0, correct := none,
      incorrect := none, accuracy := 0, avg_time := 0, best_streak := 0,
      current_streak := none, session_duration := 0,
      difficulty_breakdown := none, session_start := none, session_end := none }
  else
    let total_puzzles := t.attempts.length
    let correct_count := (t.attempts.filter (fun a => a.correct)).length
    let accuracy := (correct_count : ℚ) / (total_puzzles : ℚ)
    let avg_time := (t.attempts.map (fun a => a.time_taken)).sum / (total_puzzles : ℚ)
    let session_duration := now - t.session_start
    { user_name := t.user_name, total_puzzles := total_puzzles,
      correct := some correct_count,
      incorrect := some (total_puzzles - correct_count),
      accuracy := accuracy, avg_time := avg_time,
      best_streak := t.best_streak, current_streak := some t.current_streak,
      session_duration := session_duration,
      difficulty_breakdown := some (get_difficulty_performance t),
      session_start := some t.session_start, session_end := some now }

/-- One `adjust_difficulty` call per element of a list of tracker states, in
the `Option` monad: a sequence of adjust calls. -/
def run_adjust : AdaptiveEngine → List PerformanceTracker → Option AdaptiveEngine
  | e, [] => some e
  | e, t :: ts => (adjust_difficulty e t).bind fun r => run_adjust r.1 ts

/-- Stated from the spec's words (§4.3), for comparison with the source's
`calculate_performance_score`: the piecewise time score as a function of the
ratio `avg_time / expected_time[level]` with cut points 0.5, 1.0, 1.5. -/
def time_score_spec (ratio : ℚ) : ℚ :=
  if ratio < 1/2 then 1
  else if ratio < 1 then 8/10
  else if ratio < 3/2 then 6/10
  else 3/10

/-! ### Concrete inputs used by witnesses, counterexamples and scenarios -/

/-- A correct attempt taking 5 seconds at level 2. -/
def exCorrect : Attempt :=
  { user_answer := 7, correct_answer := 7, correct := true, time_taken := 5,
    difficulty := 2 }

/-- An incorrect attempt taking 6 seconds at level 3. -/
def exWrong : Attempt :=
  { user_answer := 1, correct_answer := 7, correct := false, time_taken := 6,
    difficulty := 3 }

/-- An attempt with a negative recorded time. -/
def exNegTime : Attempt :=
  { user_answer := 7, correct_answer := 7, correct := true, time_taken := -1,
    difficulty := 2 }

/-- Three correct fast attempts recorded from a fresh tracker. -/
def exTrackerFast3 : PerformanceTracker :=
  run_attempts (PerformanceTracker.init "u" 0) [exCorrect, exCorrect, exCorrect]

/-- Two incorrect attempts recorded from a fresh tracker. -/
def exTrackerWrong2 : PerformanceTracker :=
  run_attempts (PerformanceTracker.init "u" 0) [exWrong, exWrong]

/-- Scenario B state: a fresh tracker after exactly two incorrect level-3
attempts with arbitrary times. -/
def scenarioB (t1 t2 : ℚ) : PerformanceTracker :=
  run_attempts (PerformanceTracker.init "u" 0)
    [{ user_answer := 0, correct_answer := 1, correct := false,
       time_taken := t1, difficulty := 3 },
     { user_answer := 0, correct_answer := 1, correct := false,
       time_taken := t2, difficulty := 3 }]

/-! ### Helper lemmas -/

theorem sliceLast_length (l : List α) (n : ℕ) (hn : 1 ≤ n) :
    (sliceLast l n).length = min n l.length := by
  rw [sliceLast, if_neg (by omega), List.length_drop]
  omega

theorem get_recent_total_count (t : PerformanceTracker) (n : ℕ) (hn : 1 ≤ n) :
    (get_recent_performance t n).total_count = min n t.attempts.length := by
  by_cases h : t.attempts = []
  · simp [get_recent_performance, h]
  · simp only [get_recent_performance, if_neg h]
    exact sliceLast_length t.attempts n hn

theorem record_attempt_attempts (t : PerformanceTracker) (a : Attempt) :
    (record_attempt t a).attempts = t.attempts ++ [a] := by
  cases hc : a.correct <;> simp [record_attempt, hc]

theorem record_attempt_best_ge (t : PerformanceTracker) (a : Attempt)
    (h : t.current_streak ≤ t.best_streak) :
    (record_attempt t a).current_streak ≤ (record_attempt t a).best_streak := by
  cases hc : a.correct <;> simp [record_attempt, hc]

theorem run_attempts_best_ge (l : List Attempt) (t : PerformanceTracker)
    (h : t.current_streak ≤ t.best_streak) :
    (run_attempts t l).current_streak ≤ (run_attempts t l).best_streak := by
  induction l generalizing t with
  | nil => exact h
  | cons a l ih => exact ih (record_attempt t a) (record_attempt_best_ge t a h)

/-! ### C2 -/

/-- C2 counterexample: the claim quantifies over all `n ≥ 0`, but at `n = 0`
on a one-attempt log `get_recent_performance` returns the whole log (Python's
`attempts[-0:]` is the whole list), so `total_count = 1 ≠ min 0 1 = 0`. -/
theorem C2_window_bound_cex :
    ¬ ((get_recent_performance (record_attempt (PerformanceTracker.init "u" 0) exCorrect) 0).total_count
        = min 0 (record_attempt (PerformanceTracker.init "u" 0) exCorrect).attempts.length) := by
  norm_num [get_recent_performance, record_attempt, PerformanceTracker.init,
    exCorrect, sliceLast, List.cons_ne_nil]

/-- C2 (amended): for every `n ≥ 1`, `get_recent_performance n` has
`total_count = min n (number of attempts recorded)`; and on an empty log it
returns the zero-convention snapshot (no error) for every `n`. -/
theorem C2_window_bound (t : PerformanceTracker) (n : ℕ) :
    (1 ≤ n → (get_recent_performance t n).total_count = min n t.attempts.length) ∧
    (t.attempts = [] →
      get_recent_performance t n =
        { accuracy := 0, avg_time := 0, correct_count := 0, total_count := 0 }) := by
  constructor
  · exact fun hn => get_recent_total_count t n hn
  · intro h
    simp [get_recent_performance, h]

/-- C2 witness: both clauses at concrete inputs. -/
theorem C2_window_bound_witness :
    (get_recent_performance exTrackerFast3 2).total_count = min 2 exTrackerFast3.attempts.length ∧
    get_recent_performance (PerformanceTracker.init "w" 0) 7 =
      { accuracy := 0, avg_time := 0, correct_count := 0, total_count := 0 } :=
  ⟨(C2_window_bound exTrackerFast3 2).1 (by norm_num),
   (C2_window_bound (PerformanceTracker.init "w" 0) 7).2 rfl⟩

/-! ### C3 -/

/-- C3: after any `record_attempt` call on any state reachable from a fresh
tracker, `best_streak ≥ current_streak`; a correct attempt increments
`current_streak` by exactly 1, an incorrect one resets it to 0, and
`best_streak` never decreases across a call. -/
theorem C3_streak_invariant (u : String) (s0 : ℚ) (l : List Attempt) (a : Attempt) :
    ((record_attempt (run_attempts (PerformanceTracker.init u s0) l) a).current_streak ≤
      (record_attempt (run_attempts (PerformanceTracker.init u s0) l) a).best_streak) ∧
    (a.correct = true →
      (record_attempt (run_attempts (PerformanceTracker.init u s0) l) a).current_streak =
        (run_attempts (PerformanceTracker.init u s0) l).current_streak + 1) ∧
    (a.correct = false →
      (record_attempt (run_attempts (PerformanceTracker.init u s0) l) a).current_streak = 0) ∧
    ((run_attempts (PerformanceTracker.init u s0) l).best_streak ≤
      (record_attempt (run_attempts (PerformanceTracker.init u s0) l) a).best_streak) := by
  refine ⟨?_, ?_, ?_, ?_⟩
  · exact record_attempt_best_ge _ a
      (run_attempts_best_ge l _ (by simp [PerformanceTracker.init]))
  · intro hc; simp [record_attempt, hc]
  · intro hc; simp [record_attempt, hc]
  · cases hc : a.correct <;> simp [record_attempt, hc]

/-- C3 witness: increment on a correct attempt and reset on an incorrect
attempt, at concrete inputs. -/
theorem C3_streak_invariant_witness :
    (record_attempt (run_attempts (PerformanceTracker.init "u" 0) [exWrong]) exCorrect).current_streak =
      (run_attempts (PerformanceTracker.init "u" 0) [exWrong]).current_streak + 1 ∧
    (record_attempt (run_attempts (PerformanceTracker.init "u" 0) [exCorrect]) exWrong).current_streak = 0 :=
  ⟨(C3_streak_invariant "u" 0 [exWrong] exCorrect).2.1 rfl,
   (C3_streak_invariant "u" 0 [exCorrect] exWrong).2.2.1 rfl⟩

/-! ### C7 -/

/-- C7 counterexample: `record_attempt` does not fail fast on a negative
`time_taken`; the attempt with `time_taken = -1` lands in the log unchanged
(the source has no validation at all). -/
theorem C7_negative_time_cex :
    ((record_attempt (PerformanceTracker.init "u" 0) exNegTime).attempts.map
        fun a => a.time_taken) = [-1] := by
  norm_num [record_attempt, PerformanceTracker.init, exNegTime]

/-- C7 (amended): `record_attempt` performs no validation of
`time_taken_seconds`; an attempt with a negative time is silently accepted
and appended to the attempt log unchanged. -/
theorem C7_negative_time_accepted (t : PerformanceTracker) (a : Attempt)
    (h : a.time_taken < 0) :
    (record_attempt t a).attempts = t.attempts ++ [a] :=
  record_attempt_attempts t a

/-- C7 witness: the negative-time attempt is appended at a concrete input. -/
theorem C7_negative_time_accepted_witness :
    (record_attempt (PerformanceTracker.init "u" 0) exNegTime).attempts =
      (PerformanceTracker.init "u" 0).attempts ++ [exNegTime] :=
  C7_negative_time_accepted (PerformanceTracker.init "u" 0) exNegTime
    (by norm_num [exNegTime])

/-! ### C9 -/

/-- C9 counterexample: with zero attempts, the summary dict the source
returns has no `correct` key (modelled as the field being `none`), and its
`session_duration` is the literal 0, not `now - session_start` (here 5). -/
theorem C9_zero_summary_cex :
    (get_session_summary (PerformanceTracker.init "u" 0) 5).correct = none ∧
    (get_session_summary (PerformanceTracker.init "u" 0) 5).session_duration ≠ 5 - 0 := by
  constructor
  · simp [get_session_summary, PerformanceTracker.init]
  · simp [get_session_summary, PerformanceTracker.init]

/-- C9 (amended): with zero recorded attempts `get_session_summary` returns a
reduced dict holding only `user_name`, `total_puzzles = 0`, `accuracy = 0.0`,
`avg_time = 0.0`, `best_streak = 0` and a hard-coded `session_duration = 0`;
the `correct`/`incorrect` counts, `current_streak`, the per-difficulty
breakdown and the session start/end instants are omitted, and the duration is
not computed as now − session start. -/
theorem C9_zero_summary (u : String) (s0 : ℚ) (now : ℚ) :
    get_session_summary (PerformanceTracker.init u s0) now =
      { user_name := u, total_puzzles := 0, correct := none, incorrect := none,
        accuracy := 0, avg_time := 0, best_streak := 0, current_streak := none,
        session_duration := 0, difficulty_breakdown := none,
        session_start := none, session_end := none } := by
  simp [get_session_summary, PerformanceTracker.init]

/-! ### Engine helper lemmas -/

theorem expected_times_isSome (d : ℤ) (h1 : 1 ≤ d) (h4 : d ≤ 4) :
    ∃ et, expected_times d = some et := by
  unfold expected_times
  split_ifs <;> first | exact ⟨_, rfl⟩ | omega

theorem expected_times_none (d : ℤ) (h : d < 1 ∨ 4 < d) :
    expected_times d = none := by
  unfold expected_times
  split_ifs <;> first | rfl | omega

theorem difficulty_map_isSome (d : ℤ) (h1 : 1 ≤ d) (h4 : d ≤ 4) :
    ∃ x, difficulty_map d = some x := by
  unfold difficulty_map
  split_ifs <;> first | exact ⟨_, rfl⟩ | omega

theorem difficulty_map_none (d : ℤ) (h : d < 1 ∨ 4 < d) :
    difficulty_map d = none := by
  unfold difficulty_map
  split_ifs <;> first | rfl | omega

theorem score_isSome (s : Snapshot) (d : ℤ) (h1 : 1 ≤ d) (h4 : d ≤ 4) :
    ∃ ps, calculate_performance_score s d = some ps := by
  obtain ⟨et, het⟩ := expected_times_isSome d h1 h4
  unfold calculate_performance_score
  split
  · exact ⟨_, rfl⟩
  · rw [het]; exact ⟨_, rfl⟩

theorem inc_isSome (s : Snapshot) (d : ℤ) (h1 : 1 ≤ d) (h4 : d ≤ 4) :
    ∃ b, should_increase_difficulty s d = some b := by
  obtain ⟨et, het⟩ := expected_times_isSome d h1 h4
  unfold should_increase_difficulty
  split
  · exact ⟨_, rfl⟩
  · rw [het]; exact ⟨_, rfl⟩

theorem dec_isSome (s : Snapshot) (d : ℤ) (h1 : 1 ≤ d) (h4 : d ≤ 4) :
    ∃ b, should_decrease_difficulty s d = some b := by
  obtain ⟨et, het⟩ := expected_times_isSome d h1 h4
  unfold should_decrease_difficulty
  split
  · exact ⟨_, rfl⟩
  · rw [het]; exact ⟨_, rfl⟩

/-- The two raw conditions are mutually exclusive on any snapshot: a decrease
signal forces accuracy below 0.60, while an increase signal needs at least
0.80 accuracy. -/
theorem inc_false_of_dec_true (s : Snapshot) (d : ℤ)
    (h : should_decrease_difficulty s d = some true) :
    should_increase_difficulty s d = some false := by
  unfold should_decrease_difficulty at h
  split at h
  · exact absurd (Option.some.inj h) (by simp)
  · rename_i htc
    rw [Option.map_eq_some'] at h
    obtain ⟨et, het, hbody⟩ := h
    have hacc : s.accuracy < 6/10 := by
      split_ifs at hbody with hlow hslow
      · unfold accuracy_threshold_down at hlow; linarith
      · exact hslow.1
    unfold should_increase_difficulty
    split
    · rfl
    · rw [het, Option.map_some']
      congr 1
      split_ifs with hup hvh
      · exfalso
        have := hup.1
        unfold accuracy_threshold_up at this
        linarith
      · exfalso; linarith
      · rfl

/-- For an in-range entry level, `adjust_difficulty` succeeds, returns the
tracker unchanged, and the new level equals the transition's `to_level` and
stays in [1,4]. -/
theorem adjust_result (e : AdaptiveEngine) (t : PerformanceTracker)
    (h1 : 1 ≤ e.difficulty_level) (h4 : e.difficulty_level ≤ 4) :
    ∃ e₂ tr, adjust_difficulty e t = some (e₂, t, tr) ∧
      e₂.difficulty_level = tr.to_level ∧
      1 ≤ e₂.difficulty_level ∧ e₂.difficulty_level ≤ 4 := by
  obtain ⟨ps, hps⟩ :=
    score_isSome (get_recent_performance t window_size) e.difficulty_level h1 h4
  obtain ⟨bi, hbi⟩ :=
    inc_isSome (get_recent_performance t window_size) e.difficulty_level h1 h4
  obtain ⟨bd, hbd⟩ :=
    dec_isSome (get_recent_performance t window_size) e.difficulty_level h1 h4
  have hnd : ∃ nd : ℤ × String,
      (if bi then
          some (if e.difficulty_level < max_difficulty then
                  (e.difficulty_level + 1, "INCREASE")
                else (e.difficulty_level, "MAINTAIN"))
        else
          (should_decrease_difficulty (get_recent_performance t window_size)
              e.difficulty_level).map fun dec =>
            if dec then
              (if e.difficulty_level > min_difficulty then
                 (e.difficulty_level - 1, "DECREASE")
               else (e.difficulty_level, "MAINTAIN"))
            else (e.difficulty_level, "MAINTAIN")) = some nd ∧
        1 ≤ nd.1 ∧ nd.1 ≤ 4 := by
    cases bi with
    | true =>
      rw [if_pos rfl]
      by_cases hlt : e.difficulty_level < max_difficulty
      · rw [if_pos hlt]
        exact ⟨_, rfl, by omega, by unfold max_difficulty at hlt; omega⟩
      · rw [if_neg hlt]
        exact ⟨_, rfl, by omega, by omega⟩
    | false =>
      rw [if_neg (by simp), hbd, Option.map_some']
      cases bd with
      | true =>
        rw [if_pos rfl]
        by_cases hgt : e.difficulty_level > min_difficulty
        · rw [if_pos hgt]
          exact ⟨_, rfl, by unfold min_difficulty at hgt; omega, by omega⟩
        · rw [if_neg hgt]
          exact ⟨_, rfl, by omega, by omega⟩
      | false =>
        rw [if_neg (by simp)]
        exact ⟨_, rfl, by omega, by omega⟩
  obtain ⟨nd, hnd, hg1, hg4⟩ := hnd
  obtain ⟨en, hen⟩ := difficulty_map_isSome nd.1 hg1 hg4
  simp only [adjust_difficulty, hps, Option.some_bind, hbi, hnd, hen]
  exact ⟨_, _, rfl, rfl, hg1, hg4⟩

/-- Single-step level bounds for `adjust_difficulty`. -/
theorem adjust_step_bounds (e : AdaptiveEngine) (t : PerformanceTracker)
    (r : AdaptiveEngine × PerformanceTracker × Transition)
    (h1 : 1 ≤ e.difficulty_level) (h4 : e.difficulty_level ≤ 4)
    (h : adjust_difficulty e t = some r) :
    1 ≤ r.1.difficulty_level ∧ r.1.difficulty_level ≤ 4 := by
  obtain ⟨e₂, tr, heq, _, hb1, hb4⟩ := adjust_result e t h1 h4
  rw [heq] at h
  obtain rfl := Option.some.inj h
  exact ⟨hb1, hb4⟩

/-! ### C10 -/

/-- C10: `adjust_difficulty` never mutates the tracker (the returned tracker
state is the input one, so the attempt log and both streaks are untouched);
on the engine it appends exactly one transition record to
`transition_history`, and its new `difficulty_level` is the transition's
`to_level` while `from_level` is the entry level. -/
theorem C10_adjust_frame (e : AdaptiveEngine) (t : PerformanceTracker)
    (r : AdaptiveEngine × PerformanceTracker × Transition)
    (h : adjust_difficulty e t = some r) :
    r.2.1 = t ∧
    r.1.transition_history = e.transition_history ++ [r.2.2] ∧
    r.1.difficulty_level = r.2.2.to_level ∧
    r.2.2.from_level = e.difficulty_level := by
  simp only [adjust_difficulty, Option.bind_eq_some] at h
  obtain ⟨ps, hps, bi, hbi, nd, hnd, en, hen, hfin⟩ := h
  obtain rfl := Option.some.inj hfin
  exact ⟨rfl, rfl, rfl, rfl⟩

/-- C10 witness: at a concrete engine and tracker. -/
theorem C10_adjust_frame_witness :
    exTrackerFast3 = exTrackerFast3 ∧
    [({ from_level := 2, to_level := 3, decision := "INCREASE",
        performance_score := 1, recent_accuracy := 1, recent_avg_time := 5 } :
      Transition)] =
      ([] : List Transition) ++
        [({ from_level := 2, to_level := 3, decision := "INCREASE",
            performance_score := 1, recent_accuracy := 1,
            recent_avg_time := 5 } : Transition)] ∧
    (3 : ℤ) = 3 ∧ (2 : ℤ) = 2 := by
  have h := C10_adjust_frame
    { difficulty_level := 2, current_difficulty := .MEDIUM, transition_history := [] }
    exTrackerFast3
    ({ difficulty_level := 3, current_difficulty := .HARD,
       transition_history :=
         [{ from_level := 2, to_level := 3, decision := "INCREASE",
            performance_score := 1, recent_accuracy := 1, recent_avg_time := 5 }] },
     exTrackerFast3,
     { from_level := 2, to_level := 3, decision := "INCREASE",
       performance_score := 1, recent_accuracy := 1, recent_avg_time := 5 })
    (by norm_num [adjust_difficulty, exTrackerFast3, run_attempts, record_attempt,
      exCorrect, PerformanceTracker.init, get_recent_performance, sliceLast,
      calculate_performance_score, should_increase_difficulty,
      should_decrease_difficulty, expected_times, difficulty_map, window_size,
      accuracy_threshold_up, accuracy_threshold_down, time_weight,
      max_difficulty, min_difficulty, List.cons_ne_nil, Option.bind])
  exact ⟨h.1, h.2.1, h.2.2.1, h.2.2.2⟩

/-! ### C8 -/

/-- C8: on entry with `difficulty_level` outside [1,4], `adjust_difficulty`
fails (the dict lookups raise `KeyError`, modelled `none`) rather than
silently clamping; for every level in [1,4] the call raises nothing. -/
theorem C8_out_of_range_fails (e : AdaptiveEngine) (t : PerformanceTracker) :
    ((e.difficulty_level < 1 ∨ 4 < e.difficulty_level) →
      adjust_difficulty e t = none) ∧
    (1 ≤ e.difficulty_level → e.difficulty_level ≤ 4 →
      (adjust_difficulty e t).isSome = true) := by
  constructor
  · intro hout
    by_cases hA : t.attempts = []
    · have hrp : get_recent_performance t window_size =
          { accuracy := 0, avg_time := 0, correct_count := 0, total_count := 0 } := by
        simp [get_recent_performance, hA]
      have hsc : calculate_performance_score (get_recent_performance t window_size)
          e.difficulty_level = some (1/2) := by rw [hrp]; rfl
      have hi : should_increase_difficulty (get_recent_performance t window_size)
          e.difficulty_level = some false := by rw [hrp]; rfl
      have hd : should_decrease_difficulty (get_recent_performance t window_size)
          e.difficulty_level = some false := by rw [hrp]; rfl
      simp only [adjust_difficulty, hsc, Option.some_bind, hi, hd,
        Bool.false_eq_true, if_false, Option.map_some', Option.some_bind,
        difficulty_map_none _ hout, Option.none_bind]
    · have htc : (get_recent_performance t window_size).total_count ≠ 0 := by
        rw [get_recent_total_count t window_size (by norm_num [window_size])]
        have hlen : t.attempts.length ≠ 0 := by
          simpa [List.length_eq_zero] using hA
        unfold window_size
        omega
      have hsc : calculate_performance_score (get_recent_performance t window_size)
          e.difficulty_level = none := by
        unfold calculate_performance_score
        rw [if_neg htc, expected_times_none _ hout, Option.map_none']
      simp [adjust_difficulty, hsc]
  · intro h1 h4
    obtain ⟨e₂, tr, heq, _⟩ := adjust_result e t h1 h4
    rw [heq]
    rfl

/-- C8 witness: a level-0 engine fails on any tracker; a level-2 engine
succeeds even on an empty tracker. -/
theorem C8_out_of_range_fails_witness :
    adjust_difficulty
        { difficulty_level := 0, current_difficulty := .EASY, transition_history := [] }
        (PerformanceTracker.init "u" 0) = none ∧
    (adjust_difficulty
        { difficulty_level := 2, current_difficulty := .MEDIUM, transition_history := [] }
        (PerformanceTracker.init "u" 0)).isSome = true :=
  ⟨(C8_out_of_range_fails _ _).1 (by norm_num),
   (C8_out_of_range_fails _ _).2 (by norm_num) (by norm_num)⟩

/-! ### C4 -/

/-- C4: increase precedence. On any snapshot drawn from the tracker, when the
raw increase condition holds at a non-boundary level (2 or 3) the decision is
INCREASE — `should_decrease_difficulty` is not even consulted (the source
checks increase first, in an `if`/`elif`), so the decision is never DECREASE.
The claim's both-conditions-true hypothesis is subsumed: the conclusion holds
from the increase signal alone (simultaneous truth is in fact impossible, see
`inc_false_of_dec_true`). -/
theorem C4_increase_precedence (e : AdaptiveEngine) (t : PerformanceTracker)
    (h2 : e.difficulty_level = 2 ∨ e.difficulty_level = 3)
    (hinc : should_increase_difficulty (get_recent_performance t window_size)
      e.difficulty_level = some true) :
    ((adjust_difficulty e t).map fun r => r.2.2.decision) = some "INCREASE" := by
  have h1 : 1 ≤ e.difficulty_level := by rcases h2 with h | h <;> omega
  have h4 : e.difficulty_level ≤ 4 := by rcases h2 with h | h <;> omega
  obtain ⟨ps, hps⟩ :=
    score_isSome (get_recent_performance t window_size) e.difficulty_level h1 h4
  have hlt : e.difficulty_level < max_difficulty := by
    unfold max_difficulty; rcases h2 with h | h <;> omega
  obtain ⟨en, hen⟩ := difficulty_map_isSome (e.difficulty_level + 1)
    (by omega) (by rcases h2 with h | h <;> omega)
  simp only [adjust_difficulty, hps, Option.some_bind, hinc, if_true,
    eq_self_iff_true, if_pos hlt, hen, Option.map_some']

/-- C4 witness: at level 2 with three correct 5-second attempts the increase
signal is on and the decision is INCREASE. -/
theorem C4_increase_precedence_witness :
    ((adjust_difficulty
        { difficulty_level := 2, current_difficulty := .MEDIUM, transition_history := [] }
        exTrackerFast3).map fun r => r.2.2.decision) = some "INCREASE" :=
  C4_increase_precedence _ _ (Or.inl rfl)
    (by norm_num [exTrackerFast3, run_attempts, record_attempt, exCorrect,
      PerformanceTracker.init, get_recent_performance, sliceLast,
      should_increase_difficulty, expected_times, window_size,
      accuracy_threshold_up, List.cons_ne_nil])

/-! ### C1 -/

/-- C1: the difficulty level always stays in [1,4]: any sequence of
successful `adjust_difficulty` calls starting in [1,4] ends in [1,4]; at
level 4 with the increase signal on, the level stays 4 and the decision is
MAINTAIN; symmetrically at level 1 with the decrease signal on — the
increment/decrement is guarded, not post-hoc clamped. -/
theorem C1_difficulty_clamped :
    (∀ (e : AdaptiveEngine) (ts : List PerformanceTracker) (e' : AdaptiveEngine),
      1 ≤ e.difficulty_level → e.difficulty_level ≤ 4 →
      run_adjust e ts = some e' →
      1 ≤ e'.difficulty_level ∧ e'.difficulty_level ≤ 4) ∧
    (∀ (e : AdaptiveEngine) (t : PerformanceTracker)
        (r : AdaptiveEngine × PerformanceTracker × Transition),
      e.difficulty_level = 4 →
      should_increase_difficulty (get_recent_performance t window_size)
        e.difficulty_level = some true →
      adjust_difficulty e t = some r →
      r.1.difficulty_level = 4 ∧ r.2.2.to_level = 4 ∧ r.2.2.decision = "MAINTAIN") ∧
    (∀ (e : AdaptiveEngine) (t : PerformanceTracker)
        (r : AdaptiveEngine × PerformanceTracker × Transition),
      e.difficulty_level = 1 →
      should_decrease_difficulty (get_recent_performance t window_size)
        e.difficulty_level = some true →
      adjust_difficulty e t = some r →
      r.1.difficulty_level = 1 ∧ r.2.2.to_level = 1 ∧ r.2.2.decision = "MAINTAIN") := by
  refine ⟨?_, ?_, ?_⟩
  · intro e ts
    induction ts generalizing e with
    | nil =>
      intro e' h1 h4 h
      obtain rfl := Option.some.inj h
      exact ⟨h1, h4⟩
    | cons t ts ih =>
      intro e' h1 h4 h
      simp only [run_adjust, Option.bind_eq_some] at h
      obtain ⟨r, hr, hrun⟩ := h
      obtain ⟨hb1, hb4⟩ := adjust_step_bounds e t r h1 h4 hr
      exact ih r.1 e' hb1 hb4 hrun
  · intro e t r hlvl hinc h
    obtain ⟨ps, hps⟩ := score_isSome (get_recent_performance t window_size)
      e.difficulty_level (by omega) (by omega)
    obtain ⟨en, hen⟩ := difficulty_map_isSome e.difficulty_level (by omega) (by omega)
    have hnlt : ¬ e.difficulty_level < max_difficulty := by
      unfold max_difficulty; omega
    simp only [adjust_difficulty, hps, Option.some_bind, hinc, if_true,
      eq_self_iff_true, if_neg hnlt, Option.some_bind, hen] at h
    obtain rfl := Option.some.inj h
    exact ⟨hlvl, hlvl, rfl⟩
  · intro e t r hlvl hdec h
    have hincf := inc_false_of_dec_true _ _ hdec
    obtain ⟨ps, hps⟩ := score_isSome (get_recent_performance t window_size)
      e.difficulty_level (by omega) (by omega)
    obtain ⟨en, hen⟩ := difficulty_map_isSome e.difficulty_level (by omega) (by omega)
    have hngt : ¬ e.difficulty_level > min_difficulty := by
      unfold min_difficulty; omega
    simp only [adjust_difficulty, hps, Option.some_bind, hincf,
      Bool.false_eq_true, if_false, hdec, Option.map_some', if_true,
      eq_self_iff_true, if_neg hngt, Option.some_bind, hen] at h
    obtain rfl := Option.some.inj h
    exact ⟨hlvl, hlvl, rfl⟩

/-- C1 witness: the preservation clause over a two-call sequence, the level-4
MAINTAIN clause on three fast correct attempts, and the level-1 MAINTAIN
clause on two incorrect attempts, all at concrete inputs. -/
theorem C1_difficulty_clamped_witness :
    (∃ e', run_adjust
        { difficulty_level := 2, current_difficulty := .MEDIUM, transition_history := [] }
        [exTrackerFast3, exTrackerFast3] = some e' ∧
        1 ≤ e'.difficulty_level ∧ e'.difficulty_level ≤ 4) ∧
    (∃ r, adjust_difficulty
        { difficulty_level := 4, current_difficulty := .EXPERT, transition_history := [] }
        exTrackerFast3 = some r ∧
        r.1.difficulty_level = 4 ∧ r.2.2.to_level = 4 ∧ r.2.2.decision = "MAINTAIN") ∧
    (∃ r, adjust_difficulty
        { difficulty_level := 1, current_difficulty := .EASY, transition_history := [] }
        exTrackerWrong2 = some r ∧
        r.1.difficulty_level = 1 ∧ r.2.2.to_level = 1 ∧ r.2.2.decision = "MAINTAIN") := by
  have hrun : ∃ e', run_adjust
      { difficulty_level := 2, current_difficulty := .MEDIUM, transition_history := [] }
      [exTrackerFast3, exTrackerFast3] = some e' := by
    obtain ⟨e₂, tr, h2, _⟩ := adjust_result
      { difficulty_level := 2, current_difficulty := .MEDIUM, transition_history := [] }
      exTrackerFast3 (by norm_num) (by norm_num)
    obtain ⟨hb1, hb4⟩ := adjust_step_bounds _ _ _ (by norm_num) (by norm_num) h2
    obtain ⟨e₃, tr₃, h3, _⟩ := adjust_result e₂ exTrackerFast3 hb1 hb4
    exact ⟨e₃, by simp only [run_adjust, h2, Option.some_bind, h3]⟩
  have h4 : ∃ r, adjust_difficulty
      { difficulty_level := 4, current_difficulty := .EXPERT, transition_history := [] }
      exTrackerFast3 = some r := by
    obtain ⟨e₂, tr, h2, _⟩ := adjust_result
      { difficulty_level := 4, current_difficulty := .EXPERT, transition_history := [] }
      exTrackerFast3 (by norm_num) (by norm_num)
    exact ⟨_, h2⟩
  have h1 : ∃ r, adjust_difficulty
      { difficulty_level := 1, current_difficulty := .EASY, transition_history := [] }
      exTrackerWrong2 = some r := by
    obtain ⟨e₂, tr, h2, _⟩ := adjust_result
      { difficulty_level := 1, current_difficulty := .EASY, transition_history := [] }
      exTrackerWrong2 (by norm_num) (by norm_num)
    exact ⟨_, h2⟩
  obtain ⟨e', he'⟩ := hrun
  obtain ⟨r4, hr4⟩ := h4
  obtain ⟨r1, hr1⟩ := h1
  refine ⟨⟨e', he', C1_difficulty_clamped.1 _ _ _ (by norm_num) (by norm_num) he'⟩,
    ⟨r4, hr4, C1_difficulty_clamped.2.1 _ _ _ rfl ?_ hr4⟩,
    ⟨r1, hr1, C1_difficulty_clamped.2.2 _ _ _ rfl ?_ hr1⟩⟩
  · norm_num [exTrackerFast3, run_attempts, record_attempt, exCorrect,
      PerformanceTracker.init, get_recent_performance, sliceLast,
      should_increase_difficulty, expected_times, window_size,
      accuracy_threshold_up, List.cons_ne_nil]
  · norm_num [exTrackerWrong2, run_attempts, record_attempt, exWrong,
      PerformanceTracker.init, get_recent_performance, sliceLast,
      should_decrease_difficulty, expected_times, window_size,
      accuracy_threshold_down, List.cons_ne_nil]

/-! ### C5 -/

/-- The banded time score of the source coincides with the spec's ratio form
(for a positive expected time) and lies in [3/10, 1]. -/
theorem time_score_band (avg et : ℚ) (het : 0 < et) :
    (if avg < et * (1/2) then (1:ℚ)
     else if avg < et then 8/10
     else if avg < et * (3/2) then 6/10
     else 3/10) = time_score_spec (avg / et) ∧
    3/10 ≤ (if avg < et * (1/2) then (1:ℚ)
            else if avg < et then 8/10
            else if avg < et * (3/2) then 6/10
            else 3/10) ∧
    (if avg < et * (1/2) then (1:ℚ)
     else if avg < et then 8/10
     else if avg < et * (3/2) then 6/10
     else 3/10) ≤ 1 := by
  have e1 : (avg / et < 1/2) ↔ avg < et * (1/2) := by
    rw [div_lt_iff het]; constructor <;> intro <;> linarith
  have e2 : (avg / et < 1) ↔ avg < et := by
    rw [div_lt_iff het]; constructor <;> intro <;> linarith
  have e3 : (avg / et < 3/2) ↔ avg < et * (3/2) := by
    rw [div_lt_iff het]; constructor <;> intro <;> linarith
  refine ⟨?_, ?_, ?_⟩
  · simp only [time_score_spec, e1, e2, e3]
  · split_ifs <;> norm_num
  · split_ifs <;> norm_num

theorem expected_times_pos (d : ℤ) (et : ℚ) (het : expected_times d = some et) :
    0 < et := by
  unfold expected_times at het
  split_ifs at het <;>
    first
    | (obtain rfl := Option.some.inj het; norm_num)
    | exact absurd het (by simp)

/-- C5: for any snapshot with accuracy in [0,1] and nonnegative average time
and any level in [1,4], `calculate_performance_score` returns a score in
[0,1]; it is exactly 0.5 when `total_count = 0`, and otherwise equals
`accuracy*(1 - 0.3) + time_score*0.3` with the time score given by the
ratio-banded `time_score_spec` (cut points 0.5, 1.0, 1.5). -/
theorem C5_score_range (s : Snapshot) (d : ℤ)
    (h0 : 0 ≤ s.accuracy) (h1 : s.accuracy ≤ 1) (ht : 0 ≤ s.avg_time)
    (hd1 : 1 ≤ d) (hd4 : d ≤ 4) :
    ∃ score, calculate_performance_score s d = some score ∧
      0 ≤ score ∧ score ≤ 1 ∧
      (s.total_count = 0 → score = 1/2) ∧
      (s.total_count ≠ 0 → ∃ et, expected_times d = some et ∧
        score = s.accuracy * (1 - time_weight) +
          time_score_spec (s.avg_time / et) * time_weight) := by
  obtain ⟨et, het⟩ := expected_times_isSome d hd1 hd4
  have hetpos : 0 < et := expected_times_pos d et het
  by_cases htc : s.total_count = 0
  · refine ⟨1/2, ?_, by norm_num, by norm_num, fun _ => rfl, fun hc => absurd htc hc⟩
    simp [calculate_performance_score, htc]
  · obtain ⟨heq, hlo, hhi⟩ := time_score_band s.avg_time et hetpos
    refine ⟨s.accuracy * (1 - time_weight) +
        (if s.avg_time < et * (1/2) then (1:ℚ)
         else if s.avg_time < et then 8/10
         else if s.avg_time < et * (3/2) then 6/10
         else 3/10) * time_weight, ?_, ?_, ?_, fun hc => absurd hc htc,
      fun _ => ⟨et, het, by rw [heq]⟩⟩
    · unfold calculate_performance_score
      rw [if_neg htc, het, Option.map_some']
    · unfold time_weight at *
      set ts := (if s.avg_time < et * (1/2) then (1:ℚ)
         else if s.avg_time < et then 8/10
         else if s.avg_time < et * (3/2) then 6/10
         else 3/10)
      linarith
    · unfold time_weight at *
      set ts := (if s.avg_time < et * (1/2) then (1:ℚ)
         else if s.avg_time < et then 8/10
         else if s.avg_time < et * (3/2) then 6/10
         else 3/10)
      linarith

/-- C5 witness: the empty snapshot gives exactly 1/2, and the snapshot of
three correct 5-second attempts at level 2 gives a score in [0,1] matching
the ratio form. -/
theorem C5_score_range_witness :
    (∃ score, calculate_performance_score
        { accuracy := 0, avg_time := 0, correct_count := 0, total_count := 0 } 2 =
          some score ∧ score = 1/2) ∧
    (∃ score, calculate_performance_score
        { accuracy := 1, avg_time := 5, correct_count := 3, total_count := 3 } 2 =
          some score ∧ 0 ≤ score ∧ score ≤ 1 ∧
        ∃ et, expected_times 2 = some et ∧
          score = 1 * (1 - time_weight) + time_score_spec (5 / et) * time_weight) := by
  obtain ⟨s0, hs0, _, _, hz, _⟩ := C5_score_range
    { accuracy := 0, avg_time := 0, correct_count := 0, total_count := 0 } 2
    (by norm_num) (by norm_num) (by norm_num) (by norm_num) (by norm_num)
  obtain ⟨s1, hs1, hlo, hhi, _, hform⟩ := C5_score_range
    { accuracy := 1, avg_time := 5, correct_count := 3, total_count := 3 } 2
    (by norm_num) (by norm_num) (by norm_num) (by norm_num) (by norm_num)
  exact ⟨⟨s0, hs0, hz rfl⟩, ⟨s1, hs1, hlo, hhi, hform (by norm_num)⟩⟩

/-! ### C6 -/

/-- C6 (Scenario B): engine at level 3 with exactly two incorrect recorded
attempts (any times) — the decrease signal is on (accuracy 0 < 0.40 with
only 2 attempts, below the increase minimum of 3), and `adjust_difficulty`
returns decision DECREASE with `to_level = 2`, leaving the tracker unchanged. -/
theorem C6_scenario_B (t1 t2 : ℚ) :
    should_decrease_difficulty (get_recent_performance (scenarioB t1 t2) window_size)
      3 = some true ∧
    ((adjust_difficulty
        { difficulty_level := 3, current_difficulty := .HARD, transition_history := [] }
        (scenarioB t1 t2)).map
      fun r => (r.2.2.decision, r.2.2.to_level, r.1.difficulty_level, r.2.1)) =
      some ("DECREASE", 2, 2, scenarioB t1 t2) := by
  have hrp : get_recent_performance (scenarioB t1 t2) window_size =
      { accuracy := 0, avg_time := (t1 + t2) / 2, correct_count := 0,
        total_count := 2 } := by
    simp [scenarioB, run_attempts, record_attempt, PerformanceTracker.init,
      get_recent_performance, sliceLast, window_size, List.cons_ne_nil]
  have hdec : should_decrease_difficulty
      ({ accuracy := 0, avg_time := (t1 + t2) / 2, correct_count := 0,
         total_count := 2 } : Snapshot) 3 = some true := by
    norm_num [should_decrease_difficulty, expected_times, accuracy_threshold_down]
  have hinc : should_increase_difficulty
      ({ accuracy := 0, avg_time := (t1 + t2) / 2, correct_count := 0,
         total_count := 2 } : Snapshot) 3 = some false := by
    norm_num [should_increase_difficulty, window_size]
  obtain ⟨ps, hps⟩ := score_isSome
    ({ accuracy := 0, avg_time := (t1 + t2) / 2, correct_count := 0,
       total_count := 2 } : Snapshot) 3 (by norm_num) (by norm_num)
  constructor
  · rw [hrp]; exact hdec
  · have hgt : (1:ℤ) < 3 := by norm_num
    simp only [adjust_difficulty, hrp, hps, Option.some_bind, hinc,
      Bool.false_eq_true, if_false, hdec, Option.map_some', if_true,
      eq_self_iff_true]
    norm_num [min_difficulty, difficulty_map]

end MathAdaptive
